import Mathlib

set_option maxRecDepth 10000
set_option linter.unusedVariables false

/-!
Formal model of the darkroom photo-restoration core (the Python package
under app/): bounding-box normalization, defensive crop clamping, Gemini
JSON response parsing, topic extraction, Wikipedia related-page
filtering, the video-generation poll loop, and the deterministic
fallback paths.

Modelling conventions used throughout:
* file handling, HTTP calls and logging are abstracted into explicit
  parameters (e.g. the image dimensions that PIL would read from disk
  are passed as arguments, and the per-query search responses of the
  Wikipedia endpoint are passed as a list of optional title lists);
* Python float arithmetic on image dimensions such as
  int(width * 0.1) and int(width - 2 * (width * 0.1)) is modelled
  exactly over the integers as the floor of the rational value
  (width / 10 and 4 * width / 5); for nonnegative dimensions Python's
  int() truncation agrees with the floor;
* exceptions are modelled with Except / Option, and a try/except block
  becomes a match on the Except value.
-/

/-! ## Small Python-semantics helpers -/

/-- ASCII lower-casing of one character, modelling Python str.lower on
the ASCII range (all repository inputs of interest are ASCII). -/
def pyLowerChar (c : Char) : Char :=
  if 'A' ≤ c ∧ c ≤ 'Z' then Char.ofNat (c.toNat + 32) else c

/-- Python str.lower (ASCII model). -/
def pyLower (s : String) : String := String.mk (s.data.map pyLowerChar)

/-- Python whitespace for str.strip / str.split and the regex class \s. -/
def isPySpace (c : Char) : Bool :=
  c = ' ' || c = '\t' || c = '\n' || c = '\r' || c = '\x0b' || c = '\x0c'

/-- Substring test on character lists: does the needle occur
contiguously inside the haystack (Python "needle in hay")? -/
def subIn (needle : List Char) : List Char → Bool
  | [] => needle.isEmpty
  | c :: t => needle.isPrefixOf (c :: t) || subIn needle t

/-- Python "needle in hay" on strings. -/
def strIn (needle hay : String) : Bool := subIn needle.data hay.data

/-- Python str.strip() with no arguments (strip whitespace both ends). -/
def pyStrip (s : String) : String :=
  String.mk (((s.data.dropWhile isPySpace).reverse.dropWhile isPySpace).reverse)

/-- Python truthiness of an optional string: None and "" are falsy. -/
def pyTruthy (o : Option String) : Bool :=
  match o with
  | some s => !s.isEmpty
  | none => false

/-! ## Bounding boxes: app/image_processing/bounding_box.py -/

/-- A parsed bounding box with the four integer pixel fields. -/
structure BoundingBox where
  x : Int
  y : Int
  width : Int
  height : Int
  deriving DecidableEq

/-- A raw bounding box dict from Gemini: any of the four integer-valued
fields may be missing (bbox.get falls back to the default). -/
structure RawBBox where
  x : Option Int
  y : Option Int
  width : Option Int
  height : Option Int

/-- Model of normalize_bounding_box (bounding_box.py lines 20-43).
Missing fields default to the centered 80 percent box
(int(w * 0.1) = w / 10, int(w * 0.8) = 4 * w / 5 for w ≥ 0); then each
coordinate is clamped to the image bounds exactly as in the source:
x = max(0, min(x, W-1)), width = max(1, min(width, W - x)), and
similarly for y and height.  The low-coverage warning of lines 32-36 is
a pure print; it is modelled separately by low_coverage_warning and has
no effect on the returned box. -/
def normalize_bounding_box (bbox : RawBBox) (image_width image_height : Int) : BoundingBox :=
  let x := max 0 (min (bbox.x.getD (image_width / 10)) (image_width - 1))
  let y := max 0 (min (bbox.y.getD (image_height / 10)) (image_height - 1))
  let w := max 1 (min (bbox.width.getD (4 * image_width / 5)) (image_width - x))
  let h := max 1 (min (bbox.height.getD (4 * image_height / 5)) (image_height - y))
  ⟨x, y, w, h⟩

/-- Model of the low-coverage check (bounding_box.py lines 32-35): the
warning fires iff width/W < 0.90 or height/H < 0.90, i.e. (exactly,
over the rationals) 10 * width < 9 * W or 10 * height < 9 * H.  It is
log-only: normalize_bounding_box does not consult it. -/
def low_coverage_warning (b : BoundingBox) (image_width image_height : Int) : Bool :=
  decide (10 * b.width < 9 * image_width) || decide (10 * b.height < 9 * image_height)

/-! ## Cropping: app/image_processing/cropping.py -/

/-- The rectangle (left, top, right, bottom) handed to PIL Image.crop. -/
structure CropRect where
  left : Int
  top : Int
  right : Int
  bottom : Int
  deriving DecidableEq

/-- Model of crop_image (cropping.py lines 21-41).  The image open and
save are abstracted: the true image dimensions that PIL would report
are passed as arguments, and the observable result is the defensively
clamped crop rectangle (x, y, x + width, y + height) together with the
returned output path.  The clamp is exactly lines 29-33:
x = max(0, min(x, W)), y = max(0, min(y, H)),
width = min(width, W - x), height = min(height, H - y). -/
def crop_image (bounding_box : BoundingBox) (original_width original_height : Int)
    (output_path : String) : CropRect × String :=
  let x := max 0 (min bounding_box.x original_width)
  let y := max 0 (min bounding_box.y original_height)
  let w := min bounding_box.width (original_width - x)
  let h := min bounding_box.height (original_height - y)
  (⟨x, y, x + w, y + h⟩, output_path)

/-! ## Mock analysis fallback: app/gemini/analysis.py lines 438-468 -/

/-- A metadata dictionary value: a string or Python None (the
user_context key stores None when no context was given). -/
inductive MetaValue where
  | str (s : String)
  | null
  deriving DecidableEq

/-- Result of analyze_image: a bounding box plus a metadata dict,
modelled as an association list with the keys in insertion order. -/
structure AnalysisResult where
  bounding_box : BoundingBox
  metadata : List (String × MetaValue)
  deriving DecidableEq

/-- The notes text built by fallback_mock_analysis (lines 453-455):
the fixed sentence, with the user context appended only when truthy. -/
def mock_image_notes (user_context : Option String) : String :=
  if pyTruthy user_context then
    "Vintage photograph detected. Appears to be a family portrait." ++
      " User provided context: " ++ user_context.getD ""
  else
    "Vintage photograph detected. Appears to be a family portrait."

/-- Model of fallback_mock_analysis (analysis.py lines 438-468).  The
image is opened only for its dimensions, which are parameters here.
margin_w = width * 0.1 and the box fields are
x = int(margin_w) = width / 10, width = int(width - 2 * margin_w)
= 4 * width / 5 (floor of the exact rational value), and likewise
for y and height.  The metadata uses the legacy keys "year"/"decade"
(no "estimated_year" key is ever inserted on this path). -/
def fallback_mock_analysis (width height : Int) (user_context : Option String) :
    AnalysisResult :=
  ⟨⟨width / 10, height / 10, 4 * width / 5, 4 * height / 5⟩,
   [("year", MetaValue.str "1980"),
    ("decade", MetaValue.str "1980s"),
    ("estimated_period", MetaValue.str "Late 20th century"),
    ("notes", MetaValue.str (mock_image_notes user_context)),
    ("user_context",
      match user_context with
      | some s => MetaValue.str s
      | none => MetaValue.null)]⟩

/-- Model of the control flow of analyze_image (analysis.py lines
150-263) at the granularity the claims need: if the Gemini client is
not configured the function immediately returns
fallback_mock_analysis; otherwise it runs the real path (network call,
parse, normalize, enrichment), whose outcome is abstracted as an
optional precomputed result, and any exception on that path (the
outcome none) again falls back to fallback_mock_analysis. -/
def analyze_image (client_configured : Bool) (real_result : Option AnalysisResult)
    (width height : Int) (user_context : Option String) : AnalysisResult :=
  if client_configured = false then
    fallback_mock_analysis width height user_context
  else
    match real_result with
    | some r => r
    | none => fallback_mock_analysis width height user_context

/-! ## JSON decoding: a model of Python json.loads

parse_gemini_json_response (app/utils/parsing.py) feeds substrings to
json.loads, so the relevant fragment of Python's json module is
modelled here: a JSON value type and a total, fuel-indexed decoder.
Numeric literals are kept as their lexemes (the claims never depend on
numeric evaluation, only on decode success), and like Python's default
loads the decoder accepts the extra constants NaN, Infinity and
-Infinity. -/

/-- A decoded JSON value.  Numbers keep their source lexeme. -/
inductive Json where
  | null
  | bool (b : Bool)
  | num (lexeme : String)
  | str (s : String)
  | arr (elems : List Json)
  | obj (fields : List (String × Json))

/-- Skip JSON inter-token whitespace (space, tab, newline, return). -/
def skipWs : List Char → List Char
  | c :: cs => if c = ' ' ∨ c = '\t' ∨ c = '\n' ∨ c = '\r' then skipWs cs else c :: cs
  | [] => []

/-- Value of one hexadecimal digit. -/
def hexVal (c : Char) : Option Nat :=
  if '0' ≤ c ∧ c ≤ '9' then some (c.toNat - '0'.toNat)
  else if 'a' ≤ c ∧ c ≤ 'f' then some (c.toNat - 'a'.toNat + 10)
  else if 'A' ≤ c ∧ c ≤ 'F' then some (c.toNat - 'A'.toNat + 10)
  else none

/-- The single-character string escapes of JSON. -/
def escChar (c : Char) : Option Char :=
  if c = '"' then some '"'
  else if c = '\\' then some '\\'
  else if c = '/' then some '/'
  else if c = 'b' then some (Char.ofNat 8)
  else if c = 'f' then some (Char.ofNat 12)
  else if c = 'n' then some '\n'
  else if c = 'r' then some '\r'
  else if c = 't' then some '\t'
  else none

/-- Decode a JSON string body (the opening quote already consumed),
returning the decoded characters and the remaining input. -/
def parseJStr : List Char → Option (List Char × List Char)
  | [] => none
  | c :: cs =>
    if c = '"' then some ([], cs)
    else if c = '\\' then
      match cs with
      | [] => none
      | e :: cs2 =>
        if e = 'u' then
          match cs2 with
          | a :: b :: c3 :: d :: cs3 =>
            match hexVal a, hexVal b, hexVal c3, hexVal d with
            | some ha, some hb, some hc, some hd =>
              match parseJStr cs3 with
              | some (rest, after) =>
                some (Char.ofNat (((ha * 16 + hb) * 16 + hc) * 16 + hd) :: rest, after)
              | none => none
            | _, _, _, _ => none
          | _ => none
        else
          match escChar e with
          | some ec =>
            match parseJStr cs2 with
            | some (rest, after) => some (ec :: rest, after)
            | none => none
          | none => none
    else if c.toNat < 32 then none
    else
      match parseJStr cs with
      | some (rest, after) => some (c :: rest, after)
      | none => none

/-- Digit in 0-9. -/
def isDigit09 (c : Char) : Bool := '0' ≤ c && c ≤ '9'

/-- Optional fractional part: ".digits", consumed only when at least
one digit follows the dot (as in Python's number regex). -/
def parseFrac (cs : List Char) : List Char × List Char :=
  match cs with
  | '.' :: r =>
    match r.span isDigit09 with
    | (ds, r2) => if ds.isEmpty then ([], cs) else ('.' :: ds, r2)
  | _ => ([], cs)

/-- Optional exponent part, consumed only when well formed. -/
def parseExp (cs : List Char) : List Char × List Char :=
  match cs with
  | c :: r =>
    if c = 'e' ∨ c = 'E' then
      let p :=
        match r with
        | '+' :: t => (['+'], t)
        | '-' :: t => (['-'], t)
        | _ => (([] : List Char), r)
      match p.2.span isDigit09 with
      | (ds, r2) => if ds.isEmpty then ([], cs) else (c :: (p.1 ++ ds), r2)
    else ([], cs)
  | [] => ([], cs)

/-- A JSON number lexeme: -?(0|[1-9][0-9]*)(.[0-9]+)?([eE][+-]?[0-9]+)?. -/
def parseNum (cs : List Char) : Option (List Char × List Char) :=
  let p :=
    match cs with
    | '-' :: t => ((['-'] : List Char), t)
    | _ => ([], cs)
  match p.2 with
  | [] => none
  | c :: t =>
    if c = '0' then
      let fr := parseFrac t
      let ex := parseExp fr.2
      some (p.1 ++ ['0'] ++ fr.1 ++ ex.1, ex.2)
    else if isDigit09 c then
      match t.span isDigit09 with
      | (ds, r0) =>
        let fr := parseFrac r0
        let ex := parseExp fr.2
        some (p.1 ++ (c :: ds) ++ fr.1 ++ ex.1, ex.2)
    else none

/-- Consume a literal keyword, returning the rest of the input. -/
def litRest (lit cs : List Char) : Option (List Char) :=
  if lit.isPrefixOf cs then some (cs.drop lit.length) else none

mutual

/-- Decode one JSON value at the head of the input (leading whitespace
allowed).  Fuel bounds the nesting recursion; json_loads supplies
length + 1, which suffices since every recursive call is preceded by
the consumption of at least one character. -/
def parseValue : Nat → List Char → Option (Json × List Char)
  | 0, _ => none
  | Nat.succ f, cs0 =>
    match skipWs cs0 with
    | [] => none
    | c :: t =>
      if c = '"' then
        match parseJStr t with
        | some (sd, r) => some (Json.str (String.mk sd), r)
        | none => none
      else if c = '\x7b' then
        match skipWs t with
        | '\x7d' :: r => some (Json.obj [], r)
        | t2 =>
          match parseMembers f t2 with
          | some (fields, r) => some (Json.obj fields, r)
          | none => none
      else if c = '[' then
        match skipWs t with
        | ']' :: r => some (Json.arr [], r)
        | t2 =>
          match parseElements f t2 with
          | some (elems, r) => some (Json.arr elems, r)
          | none => none
      else
        match litRest "true".data (c :: t) with
        | some r => some (Json.bool true, r)
        | none =>
        match litRest "false".data (c :: t) with
        | some r => some (Json.bool false, r)
        | none =>
        match litRest "null".data (c :: t) with
        | some r => some (Json.null, r)
        | none =>
        match litRest "NaN".data (c :: t) with
        | some r => some (Json.num "NaN", r)
        | none =>
        match litRest "Infinity".data (c :: t) with
        | some r => some (Json.num "Infinity", r)
        | none =>
        match litRest "-Infinity".data (c :: t) with
        | some r => some (Json.num "-Infinity", r)
        | none =>
        match parseNum (c :: t) with
        | some (lex, r) => some (Json.num (String.mk lex), r)
        | none => none

/-- Decode the members of an object, positioned at the first key
(the input is known not to start with a closing brace). -/
def parseMembers : Nat → List Char → Option (List (String × Json) × List Char)
  | 0, _ => none
  | Nat.succ f, cs =>
    match cs with
    | '"' :: t =>
      match parseJStr t with
      | none => none
      | some (key, r1) =>
        match skipWs r1 with
        | ':' :: r2 =>
          match parseValue f r2 with
          | none => none
          | some (v, r3) =>
            match skipWs r3 with
            | ',' :: r4 =>
              match parseMembers f (skipWs r4) with
              | some (rest, r5) => some ((String.mk key, v) :: rest, r5)
              | none => none
            | '\x7d' :: r4 => some ([(String.mk key, v)], r4)
            | _ => none
        | _ => none
    | _ => none

/-- Decode the elements of an array, positioned at the first element
(the input is known not to start with a closing bracket). -/
def parseElements : Nat → List Char → Option (List Json × List Char)
  | 0, _ => none
  | Nat.succ f, cs =>
    match parseValue f cs with
    | none => none
    | some (v, r1) =>
      match skipWs r1 with
      | ',' :: r2 =>
        match parseElements f (skipWs r2) with
        | some (vs, r3) => some (v :: vs, r3)
        | none => none
      | ']' :: r2 => some ([v], r2)
      | _ => none

end

/-- Model of Python json.loads: decode one value and require that only
whitespace remains (anything else raises JSONDecodeError, i.e. none). -/
def json_loads (s : String) : Option Json :=
  match parseValue (s.data.length + 1) s.data with
  | some (j, rest) => if (skipWs rest).isEmpty then some j else none
  | none => none

/-! ## Response parsing: app/utils/parsing.py -/

/-- Index of the last closing brace in the input, if any. -/
def lastCloseIdx (cs : List Char) : Option Nat :=
  match cs.reverse.findIdx? (fun c => c = '\x7d') with
  | some k => some (cs.length - 1 - k)
  | none => none

/-- Model of re.search of the greedy pattern matching a brace, any
characters, then a brace (parsing.py line 25): the leftmost match runs
from the first opening brace to the last closing brace of the whole
text, and exists iff the first opening brace precedes the last closing
brace. -/
def greedy_brace_span (s : String) : Option String :=
  match s.data.findIdx? (fun c => c = '\x7b'), lastCloseIdx s.data with
  | some i, some j =>
    if i < j then some (String.mk ((s.data.drop i).take (j - i + 1))) else none
  | _, _ => none

/-- The second strategy of parse_gemini_json_response (lines 32-36):
decode the entire response text, raising ValueError on failure. -/
def parse_fallback_whole (response_text : String) : Except String Json :=
  match json_loads response_text with
  | some j => Except.ok j
  | none => Except.error "Could not parse JSON from Gemini response"

/-- Model of parse_gemini_json_response (parsing.py lines 10-36): try
to decode the greedy first-brace-to-last-brace span when it exists; on
no span or decode failure fall back to decoding the whole text; raise
(Except.error, the MalformedResponse of the spec) iff that also fails. -/
def parse_gemini_json_response (response_text : String) : Except String Json :=
  match greedy_brace_span response_text with
  | some sub =>
    match json_loads sub with
    | some j => Except.ok j
    | none => parse_fallback_whole response_text
  | none => parse_fallback_whole response_text

/-! ## Topic extraction: app/gemini/analysis.py lines 24-69

extract_topics_from_metadata uses two re.findall scans.  The regex
engines are modelled as direct character scanners that are exact for
these two patterns (see the comments on capWord and shrinkRepsRev for
why no further backtracking can occur). -/

/-- Uppercase ASCII letter. -/
def isUpperAZ (c : Char) : Bool := 'A' ≤ c && c ≤ 'Z'

/-- Lowercase ASCII letter. -/
def isLowerAZ (c : Char) : Bool := 'a' ≤ c && c ≤ 'z'

/-- A regex word character (the class behind the boundary assertion). -/
def isWordChar (c : Char) : Bool := isUpperAZ c || isLowerAZ c || isDigit09 c || c = '_'

/-- Word boundary before the current position, given the previous
character (none at the start of the text); the match always begins
with a word character, so the boundary holds iff the previous
character is absent or not a word character. -/
def boundaryOk : Option Char → Bool
  | none => true
  | some p => !isWordChar p

/-- Word boundary after a match ending in a word character: the next
character is absent or not a word character. -/
def boundaryAt : List Char → Bool
  | [] => true
  | c :: _ => !isWordChar c

/-- Match one capitalized word: an uppercase letter followed greedily
by one or more lowercase letters.  Greedy with no backtracking is
exact here: in both source patterns the word is followed either by
whitespace or by a boundary assertion, and stopping the lowercase run
early would leave the position on a lowercase letter, failing both. -/
def capWord : List Char → Option (List Char × List Char)
  | [] => none
  | c :: t =>
    if isUpperAZ c then
      match t.span isLowerAZ with
      | (ls, rest) => if ls.isEmpty then none else some (c :: ls, rest)
    else none

/-- Greedily match up to n repetitions of (whitespace+ capitalized
word), returning the matched segments (each including its leading
whitespace) and the remaining input. -/
def capReps : Nat → List Char → List (List Char) × List Char
  | 0, cs => ([], cs)
  | Nat.succ n, cs =>
    match cs.span isPySpace with
    | (ws, rest1) =>
      if ws.isEmpty then ([], cs)
      else
        match capWord rest1 with
        | none => ([], cs)
        | some (w, rest2) =>
          match capReps n rest2 with
          | (segs, rest3) => ((ws ++ w) :: segs, rest3)

/-- Backtrack on the repetition count only: drop trailing segments
(given reversed, last first) until the position after the match is a
word boundary; after dropping a segment the next character is its
leading whitespace, so at most one drop is ever needed, matching the
regex engine exactly.  Returns none when no count of at least one
repetition works. -/
def shrinkRepsRev : List (List Char) → List Char → Option (List (List Char) × List Char)
  | segsRev, rest =>
    if boundaryAt rest then
      if segsRev.isEmpty then none else some (segsRev.reverse, rest)
    else
      match segsRev with
      | [] => none
      | s :: more => shrinkRepsRev more (s ++ rest)

/-- Anchored match of the first findall pattern of analysis.py line 43
(a capitalized word followed by one to three further whitespace-
separated capitalized words, ending at a word boundary), returning the
matched text and the rest.  The boundary before the match is checked
by the scanning driver. -/
def matchCapPhrase (cs : List Char) : Option (List Char × List Char) :=
  match capWord cs with
  | none => none
  | some (w1, rest1) =>
    match capReps 3 rest1 with
    | (segs, rest2) =>
      match shrinkRepsRev segs.reverse rest2 with
      | none => none
      | some (segs2, rest3) => some (w1 ++ segs2.flatten, rest3)

/-- Left-to-right non-overlapping scan for the first pattern, as
re.findall performs it: try a match at each position, emit it and
resume after its end, otherwise advance one character.  Fuel is the
input length (every step consumes at least one character). -/
def scanCapPhrases : Nat → Option Char → List Char → List (List Char)
  | 0, _, _ => []
  | Nat.succ fuel, prev, cs =>
    match cs with
    | [] => []
    | c :: t =>
      if boundaryOk prev then
        match matchCapPhrase cs with
        | some (m, rest) => m :: scanCapPhrases fuel m.getLast? rest
        | none => scanCapPhrases fuel (some c) t
      else scanCapPhrases fuel (some c) t

/-- re.findall of the capitalized-phrase pattern over a string. -/
def findall_cap_phrases (s : String) : List String :=
  (scanCapPhrases (s.data.length + 1) none s.data).map String.mk

/-- The ordered alternatives of the second findall pattern
(analysis.py line 61). -/
def topicKeywords : List String :=
  ["War", "Movement", "Revolution", "Act", "Treaty", "Convention"]

/-- Try the keyword alternatives in order; an alternative succeeds only
when it is a prefix of the input and ends at a word boundary. -/
def matchKeyword : List String → List Char → Option (List Char × List Char)
  | [], _ => none
  | k :: ks, cs =>
    if k.data.isPrefixOf cs then
      if boundaryAt (cs.drop k.data.length) then some (k.data, cs.drop k.data.length)
      else matchKeyword ks cs
    else matchKeyword ks cs

/-- Anchored match of the second pattern: a capitalized word, then
whitespace, then one of the keyword alternatives at a word boundary.
Returns the two capture groups and the rest. -/
def matchWordKeyword (cs : List Char) : Option ((List Char × List Char) × List Char) :=
  match capWord cs with
  | none => none
  | some (w1, rest1) =>
    match rest1.span isPySpace with
    | (ws, rest2) =>
      if ws.isEmpty then none
      else
        match matchKeyword topicKeywords rest2 with
        | none => none
        | some (kw, rest3) => some ((w1, kw), rest3)

/-- Left-to-right non-overlapping scan for the second pattern. -/
def scanWordKeywords : Nat → Option Char → List Char → List (List Char × List Char)
  | 0, _, _ => []
  | Nat.succ fuel, prev, cs =>
    match cs with
    | [] => []
    | c :: t =>
      if boundaryOk prev then
        match matchWordKeyword cs with
        | some (p, rest) => p :: scanWordKeywords fuel p.2.getLast? rest
        | none => scanWordKeywords fuel (some c) t
      else scanWordKeywords fuel (some c) t

/-- re.findall of the word-keyword pattern, as (group1, group2) pairs. -/
def findall_word_keyword (s : String) : List (String × String) :=
  (scanWordKeywords (s.data.length + 1) none s.data).map
    (fun p => (String.mk p.1, String.mk p.2))

/-- The nested clothing_analysis dict with its four text sub-fields. -/
structure ClothingDict where
  styles : Option String
  materials : Option String
  quality : Option String
  significance : Option String

/-- clothing_analysis may be a dict or a plain string. -/
inductive ClothingValue where
  | dict (d : ClothingDict)
  | text (s : String)

/-- The metadata fields read by extract_topics_from_metadata; a key
whose value is missing or None is modelled as none. -/
structure GeminiMetadata where
  notes : Option String
  historical_context : Option String
  socioeconomic_inference : Option String
  lifestyle_insights : Option String
  clothing_analysis : Option ClothingValue

/-- Keep the truthy (present and nonempty) strings, in order. -/
def truthyList (fields : List (Option String)) : List String :=
  fields.foldr
    (fun o acc =>
      match o with
      | some s => if s.isEmpty then acc else s :: acc
      | none => acc) []

/-- The texts contributed by clothing_analysis (analysis.py lines
33-37): for a dict, the truthy styles/materials/significance values;
for a string, the string itself unconditionally. -/
def clothingTexts : Option ClothingValue → List String
  | some (ClothingValue.dict d) => truthyList [d.styles, d.materials, d.significance]
  | some (ClothingValue.text s) => [s]
  | none => []

/-- combined_text (line 39): the truthy top-level fields then the
clothing texts, joined with single spaces. -/
def combined_metadata_text (m : GeminiMetadata) : String :=
  String.intercalate " "
    (truthyList [m.notes, m.historical_context, m.socioeconomic_inference,
      m.lifestyle_insights] ++ clothingTexts m.clothing_analysis)

/-- The fixed skip-set of line 46. -/
def topic_skip_words : List String :=
  ["United States", "United Kingdom", "New York", "Los Angeles", "World War",
   "World War I", "World War II"]

/-- The fixed historical keyword list of lines 47-49. -/
def historical_keywords : List String :=
  ["war", "movement", "revolution", "period", "era", "decade", "navy", "army",
   "military", "regiment", "battalion", "act", "law", "treaty", "convention",
   "organization", "society", "association", "union", "dynasty", "empire",
   "kingdom", "republic"]

/-- re.match of four leading digits (line 52). -/
def startsWithFourDigits (s : String) : Bool :=
  match s.data with
  | a :: b :: c :: d :: _ => isDigit09 a && isDigit09 b && isDigit09 c && isDigit09 d
  | _ => false

/-- Python str.split() with no arguments: split on whitespace runs,
dropping empty pieces. -/
def pySplitGo : List Char → List Char → List String
  | [], acc => if acc.isEmpty then [] else [String.mk acc.reverse]
  | c :: t, acc =>
    if isPySpace c then
      if acc.isEmpty then pySplitGo t [] else String.mk acc.reverse :: pySplitGo t []
    else pySplitGo t (c :: acc)

/-- Python str.split() with no arguments. -/
def pySplit (s : String) : List String := pySplitGo s.data []

/-- The first topic loop (analysis.py lines 51-58): skip entries in the
skip-set or starting with four digits; accept an entry containing a
historical keyword (case-insensitively) or having at least two words,
unless already collected; stop once five topics are collected. -/
def pass1Loop : List String → List String → List String
  | [], topics => topics
  | m :: rest, topics =>
    if topic_skip_words.contains m || startsWithFourDigits m then pass1Loop rest topics
    else
      let ml := pyLower m
      if (historical_keywords.any (fun kw => strIn kw ml) || decide ((pySplit m).length ≥ 2))
          && !(topics.contains m) then
        if (topics ++ [m]).length ≥ 5 then topics ++ [m]
        else pass1Loop rest (topics ++ [m])
      else pass1Loop rest topics

/-- The second topic loop (lines 62-67): join each (word, keyword) pair
with a single space, append if new, stop once five topics. -/
def pass2Loop : List (String × String) → List String → List String
  | [], topics => topics
  | p :: rest, topics =>
    let topic := p.1 ++ " " ++ p.2
    if !(topics.contains topic) then
      if (topics ++ [topic]).length ≥ 5 then topics ++ [topic]
      else pass2Loop rest (topics ++ [topic])
    else pass2Loop rest topics

/-- Model of extract_topics_from_metadata (analysis.py lines 24-69). -/
def extract_topics_from_metadata (metadata : GeminiMetadata) : List String :=
  let combined := combined_metadata_text metadata
  let topics1 := pass1Loop (findall_cap_phrases combined) []
  let topics2 := pass2Loop (findall_word_keyword combined) topics1
  topics2.take 5

/-- The concrete metadata of the spec's TopicExtractor test: the notes
field holds the sentence about the Civil Rights Movement. -/
def civilRightsMetadata : GeminiMetadata :=
  ⟨some "The Civil Rights Movement changed the South.", none, none, none, none⟩

/-! ## Wikipedia related pages: app/wikipedia/api.py lines 66-131

The OpenSearch HTTP calls are abstracted: the function receives, for
each of the three queries it would issue, either the candidate title
list of a successful response (status 200 with at least two array
entries) or none for any exception, non-200 status or short payload —
both of which make the source continue with the next query. -/

/-- location.split(',')[0].strip() (api.py line 72). -/
def cleaned_location_of (location : String) : String :=
  pyStrip (String.mk (location.data.takeWhile (fun c => c ≠ ',')))

/-- The sports/competition block-list of api.py lines 108-109. -/
def skip_title_keywords : List String :=
  ["olympics", "paralympics", "sport", "football", "basketball", "baseball",
   "soccer", "championship", "tournament"]

/-- The historical keyword list of api.py line 118. -/
def historical_title_keywords : List String :=
  ["war", "movement", "revolution", "period", "era", "decade"]

/-- is_historical (api.py lines 114-119) on the lowercased title. -/
def is_historical_title (cleaned era : String) (title_lower : String) : Bool :=
  strIn "history" title_lower || strIn (pyLower era) title_lower ||
    strIn (pyLower cleaned) title_lower ||
    historical_title_keywords.any (fun k => strIn k title_lower)

/-- The inner candidate loop of api.py lines 98-124: skip a title whose
lowercasing equals the cleaned location's lowercasing or contains
"disambiguation"; skip sports titles; accept a new historically
relevant title; stop once three titles are collected. -/
def process_titles (cleaned era : String) : List String → List String → List String
  | [], acc => acc
  | title :: rest, acc =>
    if pyLower title = pyLower cleaned ∨ strIn "disambiguation" (pyLower title) = true then
      process_titles cleaned era rest acc
    else if skip_title_keywords.any (fun k => strIn k (pyLower title)) = true then
      process_titles cleaned era rest acc
    else if title ∉ acc ∧ is_historical_title cleaned era (pyLower title) = true then
      if (acc ++ [title]).length ≥ 3 then acc ++ [title]
      else process_titles cleaned era rest (acc ++ [title])
    else process_titles cleaned era rest acc

/-- The outer query loop of api.py lines 83-129: fold the per-query
search outcomes, a failed query contributing nothing, and stop issuing
further queries once three titles are collected. -/
def related_pages_loop (cleaned era : String) :
    List (Option (List String)) → List String → List String
  | [], acc => acc
  | r :: rest, acc =>
    let acc2 :=
      match r with
      | some titles => process_titles cleaned era titles acc
      | none => acc
    if acc2.length ≥ 3 then acc2 else related_pages_loop cleaned era rest acc2

/-- Model of get_related_wikipedia_pages (api.py lines 66-131).
search_results holds the outcome of the search endpoint for the three
queries built from the cleaned location and era, in order.  The final
related_pages[:3] truncation is the take 3. -/
def get_related_wikipedia_pages (location era : String)
    (search_results : List (Option (List String))) : List String :=
  (related_pages_loop (cleaned_location_of location) era search_results []).take 3

/-! ## Video generation: app/gemini/restoration.py lines 85-256

generate_video_from_image submits a Veo job and polls it.  The SDK
objects are modelled structurally: an operation has a done flag, an
optional error and an optional response; a response has the optional
RAI filter count, the filter reasons and the generated-video list
(empty covering both a missing attribute and an empty/None value, the
two cases line 233 treats alike); a generated video optionally carries
its file reference.  Polling the backend is a function from the
current wait time (0, 10, 20, ... seconds) to the next operation state
or an exception. -/

/-- One entry of response.generated_videos. -/
structure GeneratedVideo where
  video : Option String
  deriving DecidableEq

/-- operation.response. -/
structure VeoResponse where
  rai_media_filtered_count : Option Int
  rai_media_filtered_reasons : List String
  generated_videos : List GeneratedVideo
  deriving DecidableEq

/-- The polled operation object. -/
structure VeoOperation where
  done : Bool
  error : Option String
  response : Option VeoResponse
  deriving DecidableEq

/-- The poll loop of restoration.py lines 198-208: while the operation
is not done and wait_time < 300, sleep 10 seconds, add 10 to
wait_time, and re-fetch the operation (an exception there is logged
and re-raised).  The fuel argument only bounds the recursion; started
at 30 by poll_loop it can never run out, since each iteration adds 10
to wait_time and the guard requires wait_time < 300. -/
def poll_loop_go (get_op : Nat → Except String VeoOperation) (fuel : Nat)
    (op : VeoOperation) (wait_time : Nat) : Except String (VeoOperation × Nat) :=
  if op.done = false ∧ wait_time < 300 then
    match fuel with
    | 0 => Except.ok (op, wait_time)
    | Nat.succ f =>
      match get_op wait_time with
      | Except.ok op2 => poll_loop_go get_op f op2 (wait_time + 10)
      | Except.error e => Except.error e
  else Except.ok (op, wait_time)

/-- The poll loop started from wait_time 0, returning the final
operation and the total seconds waited (10 per poll issued). -/
def poll_loop (get_op : Nat → Except String VeoOperation) (op0 : VeoOperation) :
    Except String (VeoOperation × Nat) :=
  poll_loop_go get_op 30 op0 0

/-- The post-loop logic of restoration.py lines 210-248, with every
raise routed through the enclosing try to the outer handlers that
return None (lines 250-256): not done (timeout) → none; a reported
operation error → none; missing response → none; a positive RAI
filter count → none; no generated videos → none; a missing video file
reference → none; a download/save failure (download_ok = false) →
none; otherwise the output path is returned. -/
def finish_video (op : VeoOperation) (download_ok : Bool) (output_path : String) :
    Option String :=
  if op.done = false then none
  else
    match op.error with
    | some _ => none
    | none =>
      match op.response with
      | none => none
      | some resp =>
        if (match resp.rai_media_filtered_count with
            | some c => decide (0 < c)
            | none => false) then none
        else
          match resp.generated_videos with
          | [] => none
          | v :: _ =>
            match v.video with
            | none => none
            | some _ => if download_ok then some output_path else none

/-- Model of generate_video_from_image (restoration.py lines 85-256):
no client → None; otherwise run the poll loop (a polling exception
reaches the outer handler, giving None) and the post-loop logic. -/
def generate_video_from_image (client_configured : Bool) (op0 : VeoOperation)
    (get_op : Nat → Except String VeoOperation) (download_ok : Bool)
    (output_path : String) : Option String :=
  if client_configured = false then none
  else
    match poll_loop get_op op0 with
    | Except.error _ => none
    | Except.ok (op, _) => finish_video op download_ok output_path

/-! ## Restoration: app/gemini/restoration.py lines 17-82 and 259-269 -/

/-- A PIL image as the cropped input file or a grayscale conversion of
an image (Image.convert with mode L). -/
inductive PILImage where
  | file (path : String)
  | grayscaleOf (img : PILImage)
  deriving DecidableEq

/-- Model of fallback_mock_restoration (restoration.py lines 259-269):
pass the opened image through unchanged when colorize is true, convert
it to grayscale otherwise; save it and return the output path.  The
observable result is the saved image and the returned path. -/
def fallback_mock_restoration (image_path output_path : String) (colorize : Bool) :
    PILImage × String :=
  (if colorize then PILImage.file image_path
   else PILImage.grayscaleOf (PILImage.file image_path), output_path)

/-- First part of the model response carrying inline image data
(restoration.py lines 71-75). -/
def first_inline_image : List (Option PILImage) → Option PILImage
  | [] => none
  | some i :: _ => some i
  | none :: rest => first_inline_image rest

/-- Model of restore_image (restoration.py lines 17-82): no client →
mock fallback; an exception anywhere in the generation call (the
Except.error case of the abstracted model response) → mock fallback;
a response whose parts carry no inline image → mock fallback; else the
first returned image is saved.  The output path is returned in every
case. -/
def restore_image (client_configured : Bool)
    (model_response : Except String (List (Option PILImage)))
    (image_path output_path : String) (colorize : Bool) : PILImage × String :=
  if client_configured = false then
    fallback_mock_restoration image_path output_path colorize
  else
    match model_response with
    | Except.error _ => fallback_mock_restoration image_path output_path colorize
    | Except.ok parts =>
      match first_inline_image parts with
      | some restored => (restored, output_path)
      | none => fallback_mock_restoration image_path output_path colorize

/-! ## Shared lemmas -/

/-- Field bounds of the normalized box: with W, H ≥ 1 the clamps place
x in [0, W-1], y in [0, H-1], width in [1, W-x], height in [1, H-y]. -/
theorem normalize_bounding_box_bounds (bbox : RawBBox) (W H : Int)
    (hW : 1 ≤ W) (hH : 1 ≤ H) :
    0 ≤ (normalize_bounding_box bbox W H).x ∧
    (normalize_bounding_box bbox W H).x ≤ W - 1 ∧
    0 ≤ (normalize_bounding_box bbox W H).y ∧
    (normalize_bounding_box bbox W H).y ≤ H - 1 ∧
    1 ≤ (normalize_bounding_box bbox W H).width ∧
    (normalize_bounding_box bbox W H).width ≤ W - (normalize_bounding_box bbox W H).x ∧
    1 ≤ (normalize_bounding_box bbox W H).height ∧
    (normalize_bounding_box bbox W H).height ≤ H - (normalize_bounding_box bbox W H).y := by
  unfold normalize_bounding_box
  dsimp only
  omega

/-! ## Claim C1 -/

/-- Claim C1: for every raw bounding box (any of the four integer
fields possibly missing) and image dimensions W ≥ 1, H ≥ 1,
normalize_bounding_box returns (it is total, never raising) a box with
0 ≤ x, 0 ≤ y, x + width ≤ W, y + height ≤ H, width ≥ 1 and
height ≥ 1.  The low-coverage warning of the source is a bare print
modelled by the separate observer low_coverage_warning, which the
result does not depend on. -/
theorem normalize_bounding_box_always_valid :
    ∀ (bbox : RawBBox) (W H : Int), 1 ≤ W → 1 ≤ H →
      0 ≤ (normalize_bounding_box bbox W H).x ∧
      0 ≤ (normalize_bounding_box bbox W H).y ∧
      (normalize_bounding_box bbox W H).x + (normalize_bounding_box bbox W H).width ≤ W ∧
      (normalize_bounding_box bbox W H).y + (normalize_bounding_box bbox W H).height ≤ H ∧
      1 ≤ (normalize_bounding_box bbox W H).width ∧
      1 ≤ (normalize_bounding_box bbox W H).height := by
  intro bbox W H hW hH
  obtain ⟨h1, h2, h3, h4, h5, h6, h7, h8⟩ := normalize_bounding_box_bounds bbox W H hW hH
  exact ⟨h1, h3, by omega, by omega, h5, h7⟩

/-- Witness for C1 at the spec's own test input: the box
x = -50, y = 10, width = 2000, height = 50 against a 1000 x 800
image. -/
theorem normalize_bounding_box_always_valid_witness :
    1 ≤ (1000 : Int) ∧ 1 ≤ (800 : Int) ∧
    (0 ≤ (normalize_bounding_box ⟨some (-50), some 10, some 2000, some 50⟩ 1000 800).x ∧
     0 ≤ (normalize_bounding_box ⟨some (-50), some 10, some 2000, some 50⟩ 1000 800).y ∧
     (normalize_bounding_box ⟨some (-50), some 10, some 2000, some 50⟩ 1000 800).x +
       (normalize_bounding_box ⟨some (-50), some 10, some 2000, some 50⟩ 1000 800).width ≤ 1000 ∧
     (normalize_bounding_box ⟨some (-50), some 10, some 2000, some 50⟩ 1000 800).y +
       (normalize_bounding_box ⟨some (-50), some 10, some 2000, some 50⟩ 1000 800).height ≤ 800 ∧
     1 ≤ (normalize_bounding_box ⟨some (-50), some 10, some 2000, some 50⟩ 1000 800).width ∧
     1 ≤ (normalize_bounding_box ⟨some (-50), some 10, some 2000, some 50⟩ 1000 800).height) :=
  ⟨by norm_num, by norm_num,
   normalize_bounding_box_always_valid ⟨some (-50), some 10, some 2000, some 50⟩ 1000 800
     (by norm_num) (by norm_num)⟩

/-! ## Claim C6 -/

/-- Counterexample to claim C6 as stated: the claim quantifies over
boxes with arbitrary integer fields, but for the box x = 0, y = 0,
width = -5, height = -5 in a 10 x 10 image the clamp of crop_image
keeps the negative sizes (width is only min-ed against W - x, never
raised to 0), so the rectangle (0, 0, -5, -5) violates left ≤ right
and top ≤ bottom. -/
theorem crop_rect_negative_size_escapes_bounds :
    ¬ (0 ≤ (crop_image ⟨0, 0, -5, -5⟩ 10 10 "out.jpg").1.left ∧
       (crop_image ⟨0, 0, -5, -5⟩ 10 10 "out.jpg").1.left ≤
         (crop_image ⟨0, 0, -5, -5⟩ 10 10 "out.jpg").1.right ∧
       (crop_image ⟨0, 0, -5, -5⟩ 10 10 "out.jpg").1.right ≤ 10 ∧
       0 ≤ (crop_image ⟨0, 0, -5, -5⟩ 10 10 "out.jpg").1.top ∧
       (crop_image ⟨0, 0, -5, -5⟩ 10 10 "out.jpg").1.top ≤
         (crop_image ⟨0, 0, -5, -5⟩ 10 10 "out.jpg").1.bottom ∧
       (crop_image ⟨0, 0, -5, -5⟩ 10 10 "out.jpg").1.bottom ≤ 10) := by
  decide

/-- Claim C6 as amended: for every bounding box with nonnegative width
and height (which the negative-size counterexample forces; boxes
produced by normalize_bounding_box always satisfy this) and image
dimensions W ≥ 1, H ≥ 1, the defensively clamped crop rectangle lies
within the image: 0 ≤ left ≤ right ≤ W and 0 ≤ top ≤ bottom ≤ H. -/
theorem crop_rect_within_bounds_nonneg :
    ∀ (b : BoundingBox) (W H : Int) (p : String),
      1 ≤ W → 1 ≤ H → 0 ≤ b.width → 0 ≤ b.height →
      0 ≤ (crop_image b W H p).1.left ∧
      (crop_image b W H p).1.left ≤ (crop_image b W H p).1.right ∧
      (crop_image b W H p).1.right ≤ W ∧
      0 ≤ (crop_image b W H p).1.top ∧
      (crop_image b W H p).1.top ≤ (crop_image b W H p).1.bottom ∧
      (crop_image b W H p).1.bottom ≤ H := by
  intro b W H p hW hH hw hh
  unfold crop_image
  dsimp only
  omega

/-- Witness for the amended C6 at the oversized box (-50, 10, 2000, 50)
in a 1000 x 800 image. -/
theorem crop_rect_within_bounds_nonneg_witness :
    1 ≤ (1000 : Int) ∧ 1 ≤ (800 : Int) ∧
    0 ≤ (BoundingBox.mk (-50) 10 2000 50).width ∧
    0 ≤ (BoundingBox.mk (-50) 10 2000 50).height ∧
    (0 ≤ (crop_image ⟨-50, 10, 2000, 50⟩ 1000 800 "o.jpg").1.left ∧
     (crop_image ⟨-50, 10, 2000, 50⟩ 1000 800 "o.jpg").1.left ≤
       (crop_image ⟨-50, 10, 2000, 50⟩ 1000 800 "o.jpg").1.right ∧
     (crop_image ⟨-50, 10, 2000, 50⟩ 1000 800 "o.jpg").1.right ≤ 1000 ∧
     0 ≤ (crop_image ⟨-50, 10, 2000, 50⟩ 1000 800 "o.jpg").1.top ∧
     (crop_image ⟨-50, 10, 2000, 50⟩ 1000 800 "o.jpg").1.top ≤
       (crop_image ⟨-50, 10, 2000, 50⟩ 1000 800 "o.jpg").1.bottom ∧
     (crop_image ⟨-50, 10, 2000, 50⟩ 1000 800 "o.jpg").1.bottom ≤ 800) :=
  ⟨by norm_num, by norm_num, by norm_num, by norm_num,
   crop_rect_within_bounds_nonneg ⟨-50, 10, 2000, 50⟩ 1000 800 "o.jpg"
     (by norm_num) (by norm_num) (by norm_num) (by norm_num)⟩

/-! ## Claim C9 -/

/-- Claim C9: the defensive clamp inside crop_image is the identity on
the output of normalize_bounding_box for the same image dimensions
W ≥ 1, H ≥ 1: the rectangle handed to the crop operation is exactly
(x, y, x + width, y + height) of the normalized box. -/
theorem crop_clamp_identity_on_normalized :
    ∀ (bbox : RawBBox) (W H : Int) (p : String), 1 ≤ W → 1 ≤ H →
      (crop_image (normalize_bounding_box bbox W H) W H p).1 =
        ⟨(normalize_bounding_box bbox W H).x,
         (normalize_bounding_box bbox W H).y,
         (normalize_bounding_box bbox W H).x + (normalize_bounding_box bbox W H).width,
         (normalize_bounding_box bbox W H).y + (normalize_bounding_box bbox W H).height⟩ := by
  intro bbox W H p hW hH
  obtain ⟨h1, h2, h3, h4, h5, h6, h7, h8⟩ := normalize_bounding_box_bounds bbox W H hW hH
  unfold crop_image
  dsimp only
  simp only [CropRect.mk.injEq]
  refine ⟨by omega, by omega, by omega, by omega⟩

/-- Witness for C9 at the raw box (-50, 10, 2000, 50) in a 1000 x 800
image. -/
theorem crop_clamp_identity_on_normalized_witness :
    1 ≤ (1000 : Int) ∧ 1 ≤ (800 : Int) ∧
    (crop_image (normalize_bounding_box ⟨some (-50), some 10, some 2000, some 50⟩ 1000 800)
        1000 800 "o.jpg").1 =
      ⟨(normalize_bounding_box ⟨some (-50), some 10, some 2000, some 50⟩ 1000 800).x,
       (normalize_bounding_box ⟨some (-50), some 10, some 2000, some 50⟩ 1000 800).y,
       (normalize_bounding_box ⟨some (-50), some 10, some 2000, some 50⟩ 1000 800).x +
         (normalize_bounding_box ⟨some (-50), some 10, some 2000, some 50⟩ 1000 800).width,
       (normalize_bounding_box ⟨some (-50), some 10, some 2000, some 50⟩ 1000 800).y +
         (normalize_bounding_box ⟨some (-50), some 10, some 2000, some 50⟩ 1000 800).height⟩ :=
  ⟨by norm_num, by norm_num,
   crop_clamp_identity_on_normalized ⟨some (-50), some 10, some 2000, some 50⟩ 1000 800 "o.jpg"
     (by norm_num) (by norm_num)⟩

/-! ## Claim C2 -/

/-- Counterexample to claim C2 as stated: for an 11 x 11 image with the
vision backend unavailable, the mock bounding box is x = int(1.1) = 1
and width = int(11 - 2.2) = 8, which is not exactly 10 percent of the
width (10 * 1 ≠ 11) nor exactly 80 percent (10 * 8 ≠ 8 * 11): the
int() truncations make the box only approximately the centered
80-percent region unless the dimensions are multiples of 10. -/
theorem fallback_box_not_exact_80_percent :
    ¬ (10 * (analyze_image false none 11 11 none).bounding_box.x = 11 ∧
       10 * (analyze_image false none 11 11 none).bounding_box.y = 11 ∧
       10 * (analyze_image false none 11 11 none).bounding_box.width = 8 * 11 ∧
       10 * (analyze_image false none 11 11 none).bounding_box.height = 8 * 11) := by
  decide

/-- Claim C2 as amended: with the vision backend unavailable,
analyze_image deterministically (independently of the abstracted real
path) returns the truncated margin box x = int(0.1 W), y = int(0.1 H),
width = int(0.8 W), height = int(0.8 H) — which is exactly the
centered 80-percent region whenever W and H are multiples of 10 — and
metadata containing the placeholder values "1980" and "1980s". -/
theorem analyze_image_unavailable_mock_box :
    ∀ (W H : Int) (uc : Option String) (rr rr2 : Option AnalysisResult),
      1 ≤ W → 1 ≤ H →
      analyze_image false rr W H uc = analyze_image false rr2 W H uc ∧
      (analyze_image false rr W H uc).bounding_box =
        ⟨W / 10, H / 10, 4 * W / 5, 4 * H / 5⟩ ∧
      (analyze_image false rr W H uc).metadata.lookup "year" = some (MetaValue.str "1980") ∧
      (analyze_image false rr W H uc).metadata.lookup "decade" = some (MetaValue.str "1980s") ∧
      (10 ∣ W → 10 ∣ H →
        10 * (analyze_image false rr W H uc).bounding_box.x = W ∧
        10 * (analyze_image false rr W H uc).bounding_box.y = H ∧
        10 * (analyze_image false rr W H uc).bounding_box.width = 8 * W ∧
        10 * (analyze_image false rr W H uc).bounding_box.height = 8 * H ∧
        2 * (analyze_image false rr W H uc).bounding_box.x +
          (analyze_image false rr W H uc).bounding_box.width = W ∧
        2 * (analyze_image false rr W H uc).bounding_box.y +
          (analyze_image false rr W H uc).bounding_box.height = H) := by
  intro W H uc rr rr2 hW hH
  refine ⟨rfl, rfl, rfl, rfl, ?_⟩
  intro h10W h10H
  refine ⟨?_, ?_, ?_, ?_, ?_, ?_⟩
  · show 10 * (W / 10) = W
    omega
  · show 10 * (H / 10) = H
    omega
  · show 10 * (4 * W / 5) = 8 * W
    omega
  · show 10 * (4 * H / 5) = 8 * H
    omega
  · show 2 * (W / 10) + 4 * W / 5 = W
    omega
  · show 2 * (H / 10) + 4 * H / 5 = H
    omega

/-- Witness for the amended C2 at a 1000 x 800 image, where the mock
box is exactly the centered 80-percent region (100, 80, 800, 640). -/
theorem analyze_image_unavailable_mock_box_witness :
    1 ≤ (1000 : Int) ∧ 1 ≤ (800 : Int) ∧
    (analyze_image false none 1000 800 none = analyze_image false (some ⟨⟨0, 0, 1, 1⟩, []⟩) 1000 800 none ∧
     (analyze_image false none 1000 800 none).bounding_box =
       ⟨1000 / 10, 800 / 10, 4 * 1000 / 5, 4 * 800 / 5⟩ ∧
     (analyze_image false none 1000 800 none).metadata.lookup "year" = some (MetaValue.str "1980") ∧
     (analyze_image false none 1000 800 none).metadata.lookup "decade" = some (MetaValue.str "1980s") ∧
     (10 ∣ (1000 : Int) → 10 ∣ (800 : Int) →
       10 * (analyze_image false none 1000 800 none).bounding_box.x = 1000 ∧
       10 * (analyze_image false none 1000 800 none).bounding_box.y = 800 ∧
       10 * (analyze_image false none 1000 800 none).bounding_box.width = 8 * 1000 ∧
       10 * (analyze_image false none 1000 800 none).bounding_box.height = 8 * 800 ∧
       2 * (analyze_image false none 1000 800 none).bounding_box.x +
         (analyze_image false none 1000 800 none).bounding_box.width = 1000 ∧
       2 * (analyze_image false none 1000 800 none).bounding_box.y +
         (analyze_image false none 1000 800 none).bounding_box.height = 800)) :=
  ⟨by norm_num, by norm_num,
   analyze_image_unavailable_mock_box 1000 800 none none (some ⟨⟨0, 0, 1, 1⟩, []⟩)
     (by norm_num) (by norm_num)⟩

/-! ## Claim C10 -/

/-- Claim C10: every image request served by the mock fallback — the
backend-unavailable branch and the exception branch of analyze_image —
yields metadata with the legacy keys "year" = "1980" and
"decade" = "1980s" but no "estimated_year" key, since the
backward-compatibility merge runs only on the parsed-model path. -/
theorem fallback_metadata_no_estimated_year :
    ∀ (W H : Int) (uc : Option String) (rr : Option AnalysisResult),
      (analyze_image false rr W H uc).metadata.lookup "estimated_year" = none ∧
      (analyze_image false rr W H uc).metadata.lookup "year" = some (MetaValue.str "1980") ∧
      (analyze_image false rr W H uc).metadata.lookup "decade" = some (MetaValue.str "1980s") ∧
      (analyze_image true none W H uc).metadata.lookup "estimated_year" = none ∧
      (fallback_mock_analysis W H uc).metadata.lookup "estimated_year" = none :=
  fun W H uc rr => ⟨rfl, rfl, rfl, rfl, rfl⟩

/-! ## Claim C4 -/

/-- Counterexample to claim C4 as stated: for metadata whose
concatenated text fields are exactly the sentence "The Civil Rights
Movement changed the South.", the returned topics are
"The Civil Rights Movement" (the greedy capitalized-phrase match
starts at "The" and spans four words) and "Rights Movement" (the
word-keyword pattern captures only the single word before "Movement"),
so the exact string "Civil Rights Movement" is not among the
results. -/
theorem extract_topics_civil_rights_missing :
    strIn "The Civil Rights Movement changed the South."
        (combined_metadata_text civilRightsMetadata) = true ∧
    "Civil Rights Movement" ∉ extract_topics_from_metadata civilRightsMetadata := by
  refine ⟨by decide, by decide⟩

/-- Claim C4 as amended: on metadata whose notes field is the sentence
"The Civil Rights Movement changed the South." (other fields absent),
extract_topics_from_metadata returns exactly
["The Civil Rights Movement", "Rights Movement"]: the movement phrase
is surfaced, but carrying the leading "The" from the greedy
capitalized-phrase pass and as the two-word "Rights Movement" from the
pattern pass, not as the bare "Civil Rights Movement". -/
theorem extract_topics_civil_rights_actual :
    extract_topics_from_metadata civilRightsMetadata =
      ["The Civil Rights Movement", "Rights Movement"] := by
  decide

/-! ## Claim C3 -/

/-- Claim C3: parse_gemini_json_response first attempts to decode the
greedy first-brace-to-last-brace span (when one exists), then on
failure the entire text, and it raises (MalformedResponse, a
ValueError) iff neither attempt yields valid JSON; in particular the
input consisting of "Here is the result: ", the JSON object mapping
"a" to 1, and " thanks" parses to that mapping, and the input
"not json at all" raises. -/
theorem parse_gemini_json_response_spec :
    (∀ s : String,
        (∃ e, parse_gemini_json_response s = Except.error e) ↔
          ((∀ sub, greedy_brace_span s = some sub → json_loads sub = none) ∧
            json_loads s = none)) ∧
    parse_gemini_json_response "Here is the result: \x7b\"a\":1\x7d thanks" =
      Except.ok (Json.obj [("a", Json.num "1")]) ∧
    (∃ e, parse_gemini_json_response "not json at all" = Except.error e) := by
  refine ⟨?_, by rfl, ⟨"Could not parse JSON from Gemini response", by rfl⟩⟩
  intro s
  unfold parse_gemini_json_response parse_fallback_whole
  rcases hspan : greedy_brace_span s with _ | sub
  · rcases hs : json_loads s with _ | j <;> simp [hs]
  · rcases hsub : json_loads sub with _ | j
    · rcases hs : json_loads s with _ | j2 <;> simp [hsub, hs]
    · simp [hsub]

/-- Witness for C3: the raises-iff equivalence instantiated at the
concrete input "not json at all", whose definitions evaluate on both
sides. -/
theorem parse_gemini_json_response_spec_witness :
    ((∃ e, parse_gemini_json_response "not json at all" = Except.error e) ↔
      ((∀ sub, greedy_brace_span "not json at all" = some sub → json_loads sub = none) ∧
        json_loads "not json at all" = none)) ∧
    greedy_brace_span "not json at all" = none ∧
    json_loads "not json at all" = none :=
  ⟨parse_gemini_json_response_spec.1 "not json at all", rfl, rfl⟩

/-! ## Claim C5 -/

/-- Invariant of the inner candidate loop: every collected title
differs (lowercased) from the cleaned location and contains no
"disambiguation", and the collection stays duplicate-free. -/
theorem process_titles_good (cleaned era : String) (titles acc : List String)
    (hacc : ∀ t ∈ acc, pyLower t ≠ pyLower cleaned ∧ strIn "disambiguation" (pyLower t) = false)
    (hnd : acc.Nodup) :
    (∀ t ∈ process_titles cleaned era titles acc,
        pyLower t ≠ pyLower cleaned ∧ strIn "disambiguation" (pyLower t) = false) ∧
    (process_titles cleaned era titles acc).Nodup := by
  induction titles generalizing acc with
  | nil => exact ⟨hacc, hnd⟩
  | cons title rest ih =>
    simp only [process_titles]
    split_ifs with h1 h2 h3 h4
    · exact ih acc hacc hnd
    · exact ih acc hacc hnd
    · push_neg at h1
      have hgood : ∀ t ∈ acc ++ [title],
          pyLower t ≠ pyLower cleaned ∧ strIn "disambiguation" (pyLower t) = false := by
        intro t ht
        rcases List.mem_append.mp ht with h | h
        · exact hacc t h
        · rcases List.mem_singleton.mp h with rfl
          exact ⟨h1.1, by simpa using h1.2⟩
      have hndx : (acc ++ [title]).Nodup := by
        simp [List.nodup_append, hnd, h3.1]
      exact ⟨hgood, hndx⟩
    · push_neg at h1
      have hgood : ∀ t ∈ acc ++ [title],
          pyLower t ≠ pyLower cleaned ∧ strIn "disambiguation" (pyLower t) = false := by
        intro t ht
        rcases List.mem_append.mp ht with h | h
        · exact hacc t h
        · rcases List.mem_singleton.mp h with rfl
          exact ⟨h1.1, by simpa using h1.2⟩
      have hndx : (acc ++ [title]).Nodup := by
        simp [List.nodup_append, hnd, h3.1]
      exact ih _ hgood hndx
    · exact ih acc hacc hnd

/-- The outer query loop preserves the same invariant. -/
theorem related_pages_loop_good (cleaned era : String)
    (results : List (Option (List String))) (acc : List String)
    (hacc : ∀ t ∈ acc, pyLower t ≠ pyLower cleaned ∧ strIn "disambiguation" (pyLower t) = false)
    (hnd : acc.Nodup) :
    (∀ t ∈ related_pages_loop cleaned era results acc,
        pyLower t ≠ pyLower cleaned ∧ strIn "disambiguation" (pyLower t) = false) ∧
    (related_pages_loop cleaned era results acc).Nodup := by
  induction results generalizing acc with
  | nil => exact ⟨hacc, hnd⟩
  | cons r rest ih =>
    simp only [related_pages_loop]
    cases r with
    | none =>
      dsimp only
      split_ifs with h
      · exact ⟨hacc, hnd⟩
      · exact ih acc hacc hnd
    | some titles =>
      dsimp only
      obtain ⟨hg, hn⟩ := process_titles_good cleaned era titles acc hacc hnd
      split_ifs with h
      · exact ⟨hg, hn⟩
      · exact ih _ hg hn

/-- Counterexample to claim C5 as stated: the source only rejects a
candidate whose lowercasing equals the lowercasing of the
comma-stripped location, so for the queried location "Paris, France" a
candidate title "Paris, France" (equal to the queried location itself)
survives the filter — its lowercasing differs from "paris" and it
counts as historical because it contains the cleaned location. -/
theorem get_related_pages_can_return_location :
    get_related_wikipedia_pages "Paris, France" "1900s" [some ["Paris, France"]] =
      ["Paris, France"] ∧
    "Paris, France" ∈
      get_related_wikipedia_pages "Paris, France" "1900s" [some ["Paris, France"]] := by
  refine ⟨by decide, by decide⟩

/-- Claim C5 as amended: for every location, era and sequence of
per-query candidate lists, get_related_wikipedia_pages returns an
ordered list of at most 3 pairwise-distinct titles, never includes a
title whose lowercase form equals the lowercase of the comma-stripped
queried location (rather than the raw location string, which the
counterexample shows can come back), and never includes a title
containing "disambiguation" case-insensitively. -/
theorem get_related_pages_filter_guarantees :
    ∀ (location era : String) (results : List (Option (List String))),
      (get_related_wikipedia_pages location era results).length ≤ 3 ∧
      (get_related_wikipedia_pages location era results).Nodup ∧
      ∀ t ∈ get_related_wikipedia_pages location era results,
        pyLower t ≠ pyLower (cleaned_location_of location) ∧
        strIn "disambiguation" (pyLower t) = false := by
  intro location era results
  obtain ⟨hg, hn⟩ := related_pages_loop_good (cleaned_location_of location) era results []
      (by simp) List.nodup_nil
  unfold get_related_wikipedia_pages
  refine ⟨List.length_take_le 3 _, hn.sublist (List.take_sublist _ _), ?_⟩
  intro t ht
  exact hg t (List.mem_of_mem_take ht)

/-- Witness for the amended C5 at a concrete query whose single search
response offers one acceptable and one disambiguation title. -/
theorem get_related_pages_filter_guarantees_witness :
    (get_related_wikipedia_pages "Springfield" "1950s"
        [some ["History of Springfield", "Springfield (disambiguation)"]]).length ≤ 3 ∧
    (get_related_wikipedia_pages "Springfield" "1950s"
        [some ["History of Springfield", "Springfield (disambiguation)"]]).Nodup ∧
    ∀ t ∈ get_related_wikipedia_pages "Springfield" "1950s"
        [some ["History of Springfield", "Springfield (disambiguation)"]],
      pyLower t ≠ pyLower (cleaned_location_of "Springfield") ∧
      strIn "disambiguation" (pyLower t) = false :=
  get_related_pages_filter_guarantees "Springfield" "1950s"
    [some ["History of Springfield", "Springfield (disambiguation)"]]

/-! ## Claim C7 -/

/-- The poll loop consults the backend only at wait times below the
300-second ceiling: two backends agreeing on every wait time below 300
yield identical loop results (hence at most 30 polls matter). -/
theorem poll_loop_go_agree (get_op get_op2 : Nat → Except String VeoOperation)
    (h : ∀ i, i < 300 → get_op i = get_op2 i) :
    ∀ (fuel : Nat) (op : VeoOperation) (wait_time : Nat),
      poll_loop_go get_op fuel op wait_time = poll_loop_go get_op2 fuel op wait_time := by
  intro fuel
  induction fuel with
  | zero =>
    intro op w
    unfold poll_loop_go
    split_ifs <;> rfl
  | succ f ih =>
    intro op w
    unfold poll_loop_go
    split_ifs with hg
    · rw [h w hg.2]
      cases hop : get_op2 w with
      | ok op2 => exact ih op2 (w + 10)
      | error e => rfl
    · rfl

/-- The final wait time of the poll loop stays at most 300 and a
multiple of the fixed 10-second interval. -/
theorem poll_loop_go_wait_bound (get_op : Nat → Except String VeoOperation) :
    ∀ (fuel : Nat) (op : VeoOperation) (w : Nat), w ≤ 300 → w % 10 = 0 →
      ∀ op2 w2, poll_loop_go get_op fuel op w = Except.ok (op2, w2) →
        w2 ≤ 300 ∧ w2 % 10 = 0 := by
  intro fuel
  induction fuel with
  | zero =>
    intro op w hw hm op2 w2 h
    unfold poll_loop_go at h
    split_ifs at h <;> (cases h; exact ⟨hw, hm⟩)
  | succ f ih =>
    intro op w hw hm op2 w2 h
    unfold poll_loop_go at h
    split_ifs at h with hg
    · cases hop : get_op w with
      | ok opn =>
        rw [hop] at h
        exact ih opn (w + 10) (by omega) (by omega) op2 w2 h
      | error e =>
        rw [hop] at h
        cases h
    · cases h
      exact ⟨hw, hm⟩

/-- Claim C7: generate_video_from_image polls at a fixed 10-second
interval up to the 300-second ceiling — its result depends only on the
poll answers at wait times below 300 (at most 30 polls), and the final
wait time is a multiple of 10 at most 300 — and it returns none, never
raising to its caller (it is a total function into Option), on
timeout (final operation not done), on a reported operation error, on
a missing response, on a positive safety-filter count, on an empty
generated-videos list, on a missing video file reference, on a failed
download, and on a polling exception. -/
theorem generate_video_poll_bound_and_none :
    ∀ (op0 : VeoOperation) (get_op get_op2 : Nat → Except String VeoOperation)
      (dl : Bool) (out : String),
      ((∀ i, i < 300 → get_op i = get_op2 i) →
        generate_video_from_image true op0 get_op dl out =
          generate_video_from_image true op0 get_op2 dl out) ∧
      (∀ op w, poll_loop get_op op0 = Except.ok (op, w) → w ≤ 300 ∧ w % 10 = 0) ∧
      (∀ op w, poll_loop get_op op0 = Except.ok (op, w) → op.done = false →
        generate_video_from_image true op0 get_op dl out = none) ∧
      (∀ op w e, poll_loop get_op op0 = Except.ok (op, w) → op.error = some e →
        generate_video_from_image true op0 get_op dl out = none) ∧
      (∀ op w, poll_loop get_op op0 = Except.ok (op, w) → op.response = none →
        generate_video_from_image true op0 get_op dl out = none) ∧
      (∀ op w resp c, poll_loop get_op op0 = Except.ok (op, w) → op.response = some resp →
        resp.rai_media_filtered_count = some c → 0 < c →
        generate_video_from_image true op0 get_op dl out = none) ∧
      (∀ op w resp, poll_loop get_op op0 = Except.ok (op, w) → op.response = some resp →
        resp.generated_videos = [] →
        generate_video_from_image true op0 get_op dl out = none) ∧
      (∀ op w resp v vs, poll_loop get_op op0 = Except.ok (op, w) → op.response = some resp →
        resp.generated_videos = v :: vs → v.video = none →
        generate_video_from_image true op0 get_op dl out = none) ∧
      (∀ op w resp v vs r, poll_loop get_op op0 = Except.ok (op, w) → op.response = some resp →
        resp.generated_videos = v :: vs → v.video = some r → dl = false →
        generate_video_from_image true op0 get_op dl out = none) ∧
      (∀ e, poll_loop get_op op0 = Except.error e →
        generate_video_from_image true op0 get_op dl out = none) := by
  intro op0 get_op get_op2 dl out
  refine ⟨?_, ?_, ?_, ?_, ?_, ?_, ?_, ?_, ?_, ?_⟩
  · intro hagree
    unfold generate_video_from_image poll_loop
    rw [poll_loop_go_agree get_op get_op2 hagree]
  · intro op w h
    exact poll_loop_go_wait_bound get_op 30 op0 0 (by omega) (by omega) op w h
  · intro op w h hdone
    simp [generate_video_from_image, h, finish_video, hdone]
  · intro op w e h herr
    cases hd : op.done <;> simp [generate_video_from_image, h, finish_video, hd, herr]
  · intro op w h hresp
    cases hd : op.done <;> cases herr : op.error <;>
      simp [generate_video_from_image, h, finish_video, hd, herr, hresp]
  · intro op w resp c h hresp hc hc0
    cases hd : op.done <;> cases herr : op.error <;>
      simp [generate_video_from_image, h, finish_video, hd, herr, hresp, hc, hc0]
  · intro op w resp h hresp hvids
    cases hd : op.done <;> cases herr : op.error <;>
      simp [generate_video_from_image, h, finish_video, hd, herr, hresp, hvids]
  · intro op w resp v vs h hresp hvids hv
    cases hd : op.done <;> cases herr : op.error <;>
      simp [generate_video_from_image, h, finish_video, hd, herr, hresp, hvids, hv]
  · intro op w resp v vs r h hresp hvids hv hdl
    cases hd : op.done <;> cases herr : op.error <;>
      simp [generate_video_from_image, h, finish_video, hd, herr, hresp, hvids, hv, hdl]
  · intro e h
    simp [generate_video_from_image, h]

/-- Witness for C7: a backend that never reports done makes the loop
run its full 30 polls to wait time 300 and generate_video_from_image
return none (the timeout case), with the poll loop evaluated
concretely. -/
theorem generate_video_poll_bound_and_none_witness :
    poll_loop (fun _ => Except.ok ⟨false, none, none⟩) ⟨false, none, none⟩ =
      Except.ok (⟨false, none, none⟩, 300) ∧
    (VeoOperation.mk false none none).done = false ∧
    generate_video_from_image true ⟨false, none, none⟩
      (fun _ => Except.ok ⟨false, none, none⟩) true "out.mp4" = none :=
  ⟨rfl, rfl,
   (generate_video_poll_bound_and_none ⟨false, none, none⟩
       (fun _ => Except.ok ⟨false, none, none⟩) (fun _ => Except.ok ⟨false, none, none⟩)
       true "out.mp4").2.2.1 ⟨false, none, none⟩ 300 rfl rfl⟩

/-! ## Claim C8 -/

/-- Claim C8: restore_image never fails — it is total and returns the
output path in every case; when the generation backend is unavailable,
when the generation call raises, and when the model's response carries
no inline image payload, it falls back to fallback_mock_restoration,
which deterministically passes the cropped input through unchanged for
colorize = true and converts it to grayscale for colorize = false. -/
theorem restore_image_never_fails :
    ∀ (cc : Bool) (mr : Except String (List (Option PILImage)))
      (image_path output_path : String) (colorize : Bool),
      (restore_image cc mr image_path output_path colorize).2 = output_path ∧
      (cc = false →
        restore_image cc mr image_path output_path colorize =
          fallback_mock_restoration image_path output_path colorize) ∧
      (∀ e, mr = Except.error e →
        restore_image cc mr image_path output_path colorize =
          fallback_mock_restoration image_path output_path colorize) ∧
      (∀ parts, mr = Except.ok parts → first_inline_image parts = none →
        restore_image cc mr image_path output_path colorize =
          fallback_mock_restoration image_path output_path colorize) ∧
      (fallback_mock_restoration image_path output_path true).1 = PILImage.file image_path ∧
      (fallback_mock_restoration image_path output_path false).1 =
        PILImage.grayscaleOf (PILImage.file image_path) := by
  intro cc mr image_path output_path colorize
  refine ⟨?_, ?_, ?_, ?_, rfl, rfl⟩
  · cases cc with
    | false => rfl
    | true =>
      cases mr with
      | error e => rfl
      | ok parts =>
        rcases hfi : first_inline_image parts with _ | i <;>
          simp [restore_image, hfi, fallback_mock_restoration]
  · intro hcc
    subst hcc
    rfl
  · intro e he
    subst he
    cases cc <;> rfl
  · intro parts hp hfi
    subst hp
    cases cc with
    | false => rfl
    | true => simp [restore_image, hfi]

/-- Witness for C8: with the backend unavailable and colorize = false
the cropped image is saved as its grayscale conversion and the output
path is returned. -/
theorem restore_image_never_fails_witness :
    (restore_image false (Except.error "boom") "in.jpg" "out.jpg" false).2 = "out.jpg" ∧
    restore_image false (Except.error "boom") "in.jpg" "out.jpg" false =
      fallback_mock_restoration "in.jpg" "out.jpg" false ∧
    (fallback_mock_restoration "in.jpg" "out.jpg" false).1 =
      PILImage.grayscaleOf (PILImage.file "in.jpg") :=
  ⟨(restore_image_never_fails false (Except.error "boom") "in.jpg" "out.jpg" false).1,
   (restore_image_never_fails false (Except.error "boom") "in.jpg" "out.jpg" false).2.1 rfl,
   (restore_image_never_fails false (Except.error "boom") "in.jpg" "out.jpg" false).2.2.2.2.2⟩
